import Mathlib

/-
Shallow embedding of the validation / template engine of
`complete_demo.py` (class `ProfessionalPDFMapper`): the record validator
`validate_data`, the helpers `_validate_email`, `_validate_phone`,
`_validate_date`, and the statistics aggregator
`generate_statistics_report`.

Modelling conventions:
* Python dicts become association lists `List (String × α)` with unique
  keys; iteration order is the list order (Python dicts iterate in
  insertion order).
* Record values are scalars (string, integer, boolean), as in the data
  model; Python `str`, truthiness and `float()` conversion are embedded
  for these scalars.  Parsed numbers are rationals.
* Python character classes (`\s`, `str.isdigit`) are modelled over their
  ASCII content; every string appearing in a claim is ASCII or CJK text
  with no exotic whitespace, so the restriction is invisible to the
  claims.
* `re.match` is embedded by a small regex interpreter covering the
  constructs used by the source patterns (character classes, literals,
  bounded/unbounded repetition of a class, the `$` anchor);
  `re.match` anchors at the start of the string only, so a leading `^`
  in a pattern is dropped as a no-op.
-/

/-- A scalar record value: Python `str`, `int` or `bool`. -/
inductive Value where
  | s : String → Value
  | i : Int → Value
  | b : Bool → Value
deriving DecidableEq, Repr

/-- Python `str(value)` for scalar values. -/
def pyStr : Value → String
  | .s t => t
  | .i n => toString n
  | .b true => "True"
  | .b false => "False"

/-- Python truthiness of a scalar value. -/
def pyTruthy : Value → Bool
  | .s t => !t.isEmpty
  | .i n => n != 0
  | .b bb => bb

/-- Python whitespace (ASCII part), as stripped by `str.strip()` and by
the `\s` regex class. -/
def isSpaceChar (c : Char) : Bool :=
  c == ' ' || c == '\t' || c == '\n' || c == '\r' || c == '\x0b' || c == '\x0c'

/-- Python `str.strip()` on its ASCII whitespace content. -/
def pyStrip (s : String) : String :=
  ⟨((s.data.dropWhile isSpaceChar).reverse.dropWhile isSpaceChar).reverse⟩

def isDigitChar (c : Char) : Bool := '0' ≤ c && c ≤ '9'

def digitVal (c : Char) : Nat := c.toNat - ('0').toNat

def natOfDigits (l : List Char) : Nat :=
  l.foldl (fun a c => a * 10 + digitVal c) 0

/-- Value of a decimal fraction plus exponent:
`ip . fp  * 10^ex` as a rational. -/
def decimalVal (ip fp : List Char) (ex : Int) : Rat :=
  let mant : Rat := (natOfDigits ip : Rat) + (natOfDigits fp : Rat) / ((10 : Rat) ^ fp.length)
  if 0 ≤ ex then mant * (10 : Rat) ^ ex.toNat else mant / (10 : Rat) ^ (-ex).toNat

/-- Exponent part of a float literal: optional sign then a nonempty
digit run. -/
def parseExpPart : List Char → Option Int
  | '+' :: t => if t ≠ [] && t.all isDigitChar then some (natOfDigits t) else none
  | '-' :: t => if t ≠ [] && t.all isDigitChar then some (-(natOfDigits t : Int)) else none
  | t => if t ≠ [] && t.all isDigitChar then some (natOfDigits t) else none

/-- Unsigned body of a Python float literal: `digits [. digits] [e exp]`
with at least one digit in the mantissa.  (`inf`/`nan`/underscores are
not modelled; no claim exercises them.) -/
def parseFloatCore (l : List Char) : Option Rat :=
  let p1 := l.span isDigitChar
  let p2 := match p1.2 with
    | '.' :: t => t.span isDigitChar
    | _ => ([], p1.2)
  if p1.1.isEmpty && p2.1.isEmpty then none
  else
    match p2.2 with
    | [] => some (decimalVal p1.1 p2.1 0)
    | 'e' :: t => (parseExpPart t).map (decimalVal p1.1 p2.1)
    | 'E' :: t => (parseExpPart t).map (decimalVal p1.1 p2.1)
    | _ => none

/-- Python `float(value)` on scalar values: numbers convert, booleans
give 0/1, strings are stripped and parsed as decimal literals; `none`
models the `ValueError` raised on an unparsable string. -/
def pyFloat : Value → Option Rat
  | .i n => some (n : Rat)
  | .b true => some 1
  | .b false => some 0
  | .s t =>
    match (pyStrip t).data with
    | '+' :: r => parseFloatCore r
    | '-' :: r => (parseFloatCore r).map Neg.neg
    | r => parseFloatCore r

/-- Regular-expression fragment, covering the constructs of the source
patterns: literal characters, a character class repeated between `lo`
and `hi` times (`hi = none` for unbounded), concatenation, and the `$`
end anchor.  A class is a union of inclusive character ranges. -/
inductive Regex where
  | eps : Regex
  | lit : Char → Regex
  | clsRep : List (Char × Char) → Nat → Option Nat → Regex
  | seq : Regex → Regex → Regex
  | endAnchor : Regex
deriving DecidableEq

def inCls (rs : List (Char × Char)) (c : Char) : Bool :=
  rs.any (fun p => p.1 ≤ c && c ≤ p.2)

/-- Suffixes of `s` left after consuming 0, 1, 2, … characters of the
class `rs`, up to the maximal run of class members. -/
def clsDrops (rs : List (Char × Char)) : List Char → List (List Char)
  | [] => [[]]
  | c :: s => (c :: s) :: (if inCls rs c then clsDrops rs s else [])

/-- All suffixes of the input that some match of the regex can leave
behind (backtracking regex semantics: a match starting at the front of
the input exists iff this list is nonempty). -/
def Regex.matchSufs : Regex → List Char → List (List Char)
  | .eps, s => [s]
  | .lit _, [] => []
  | .lit c, d :: s => if c = d then [s] else []
  | .clsRep rs lo none, s => (clsDrops rs s).drop lo
  | .clsRep rs lo (some hi), s => ((clsDrops rs s).drop lo).take (hi + 1 - lo)
  | .seq a b, s => (a.matchSufs s).flatMap b.matchSufs
  | .endAnchor, s => if s.isEmpty then [[]] else []

/-- Python `re.match(r, s) is not None`: some prefix of `s` matches
(anchored at the start only). -/
def reMatch (r : Regex) (s : String) : Bool :=
  !(r.matchSufs s.data).isEmpty

/-- Python `re.fullmatch(r, s) is not None`: the whole of `s` matches
(anchored at both ends).  This is the spec's notion of "fully match";
the source never calls it. -/
def reFullmatch (r : Regex) (s : String) : Bool :=
  (r.matchSufs s.data).contains []

/-- The pattern of `_validate_email`:
`^[a-zA-Z0-9._%+-]+@[a-zA-Z0-9.-]+\.[a-zA-Z]{2,}$` (leading `^`
dropped: `re.match` is already start-anchored). -/
def emailRegex : Regex :=
  .seq (.clsRep [('a','z'),('A','Z'),('0','9'),('.','.'),('_','_'),('%','%'),('+','+'),('-','-')] 1 none)
  (.seq (.lit '@')
  (.seq (.clsRep [('a','z'),('A','Z'),('0','9'),('.','.'),('-','-')] 1 none)
  (.seq (.lit '.')
  (.seq (.clsRep [('a','z'),('A','Z')] 2 none) .endAnchor))))

/-- `_validate_email`: `re.match` of the email pattern against
`str(email)`. -/
def validateEmail (v : Value) : Bool :=
  reMatch emailRegex (pyStr v)

/-- The separator class `[\s\-\(\)\+]` removed by `_validate_phone`. -/
def isSepChar (c : Char) : Bool :=
  isSpaceChar c || c == '-' || c == '(' || c == ')' || c == '+'

/-- `_validate_phone`: strip separators from `str(phone)`; at least 8
characters must remain and all must be digits. -/
def validatePhone (v : Value) : Bool :=
  let cleaned := (pyStr v).data.filter (fun c => !isSepChar c)
  decide (8 ≤ cleaned.length) && cleaned.all isDigitChar

/-- Day component of `strptime`'s `%d`: one digit `1-9`, or two digits
`01`–`31` (the regex `3[01]|[12]\d|0[1-9]|[1-9]`), consuming the whole
remaining input. -/
def parseDay : List Char → Option Nat
  | [d1] => if isDigitChar d1 && decide (1 ≤ digitVal d1) then some (digitVal d1) else none
  | [d1, d2] =>
    if isDigitChar d1 && isDigitChar d2
        && decide (1 ≤ digitVal d1 * 10 + digitVal d2)
        && decide (digitVal d1 * 10 + digitVal d2 ≤ 31) then
      some (digitVal d1 * 10 + digitVal d2)
    else none
  | _ => none

/-- Month then day of `%m-%d`: the month is one digit `1-9` or two
digits `01`–`12` (the regex `1[0-2]|0[1-9]|[1-9]`), followed by a
literal `-` and the day.  The one-digit reading applies exactly when
the second character is the separator (a two-character month cannot
contain `-`), so the backtracking alternation is deterministic. -/
def parseMD : List Char → Option (Nat × Nat)
  | m1 :: c2 :: rest =>
    if c2 = '-' then
      if isDigitChar m1 && decide (1 ≤ digitVal m1) then
        (parseDay rest).map (fun d => (digitVal m1, d))
      else none
    else
      match rest with
      | c3 :: rest2 =>
        if c3 = '-' then
          if isDigitChar m1 && isDigitChar c2
              && decide (1 ≤ digitVal m1 * 10 + digitVal c2)
              && decide (digitVal m1 * 10 + digitVal c2 ≤ 12) then
            (parseDay rest2).map (fun d => (digitVal m1 * 10 + digitVal c2, d))
          else none
        else none
      | [] => none
  | _ => none

def leapYear (y : Nat) : Bool :=
  y % 4 == 0 && (y % 100 != 0 || y % 400 == 0)

def daysInMonth (y m : Nat) : Nat :=
  if m = 2 then (if leapYear y then 29 else 28)
  else if m = 4 || m = 6 || m = 9 || m = 11 then 30
  else 31

/-- `datetime.strptime(s, "%Y-%m-%d")` on the character list: a
four-digit year, `-`, month, `-`, day, consuming the whole input, such
that the result is a valid `datetime` date (year at least
`MINYEAR = 1`, day within the month). -/
def strptimeCore : List Char → Option (Nat × Nat × Nat)
  | y1 :: y2 :: y3 :: y4 :: c :: rest =>
    if c = '-' && isDigitChar y1 && isDigitChar y2 && isDigitChar y3 && isDigitChar y4 then
      match parseMD rest with
      | some (m, d) =>
        let y := natOfDigits [y1, y2, y3, y4]
        if decide (1 ≤ y) && decide (1 ≤ d) && decide (d ≤ daysInMonth y m) then
          some (y, m, d)
        else none
      | none => none
    else none
  | _ => none

/-- `datetime.strptime(s, "%Y-%m-%d")`. -/
def strptimeYMD (s : String) : Option (Nat × Nat × Nat) :=
  strptimeCore s.data

/-- `_validate_date`: `strptime` succeeds (its `ValueError` is caught
and turned into `False`). -/
def validateDate (v : Value) : Bool :=
  (strptimeYMD (pyStr v)).isSome

-- Evaluation checks pinning the embedded primitives to the source behaviour.
example : validateDate (.s ("1990-01-15")) = true := by decide
example : validateDate (.s ("1990-1-5")) = true := by decide
example : validateDate (.s ("1990-13-40")) = false := by decide
example : validateDate (.s ("1990/01/05")) = false := by decide
example : validateDate (.s ("1990-02-29")) = false := by decide
example : validateDate (.s ("1992-02-29")) = true := by decide
example : validateDate (.s ("0000-01-01")) = false := by decide
example : validatePhone (.s ("+886-2-1234-5678")) = true := by decide
example : validatePhone (.s ("12345")) = false := by decide
example : validateEmail (.s ("a@b.co")) = true := by decide
example : validateEmail (.s ("a@b")) = false := by decide
example : pyFloat (.s ("AB")) = none := by decide
example : (pyFloat (.s ("12"))).isSome = true := by decide
example : reMatch (.seq (.clsRep [('A','Z'),('0','9')] 1 none) .endAnchor) ("AB-12") = false := by decide
example : reMatch (.seq (.clsRep [('A','Z'),('0','9')] 1 none) .endAnchor) ("AB12") = true := by decide
example : reMatch (.clsRep [('A','Z')] 1 none) ("AB-12") = true := by decide
example : reFullmatch (.clsRep [('A','Z')] 1 none) ("AB-12") = false := by decide

/-- One field specification of a template (the keys a `field_config`
dict can carry in the source configuration; `options`, where present in
the source's templates, is a list of strings). -/
structure FieldSpec where
  type : String := "text"
  required : Bool := false
  max_length : Option Nat := none
  min_value : Option Int := none
  max_value : Option Int := none
  options : Option (List String) := none
  validation_pattern : Option Regex := none
  description : Option String := none
deriving DecidableEq

/-- A template: its ordered `fields` mapping (the descriptive metadata
of a template plays no role in validation or statistics). -/
structure Template where
  fields : List (String × FieldSpec)
deriving DecidableEq

/-- An ASCII single-quote, as used by the source's f-string messages. -/
def sQuote : String := "\x27"

/-- The `'<field_name>'` fragment that opens every per-field message. -/
def keyRef (fn : String) : String := sQuote ++ fn ++ sQuote

def emailMsg (fn : String) : String := keyRef fn ++ (" 不是有效的電子郵件格式")

def phoneMsg (fn : String) : String := keyRef fn ++ (" 不是有效的電話號碼格式")

def dateMsg (fn : String) : String := keyRef fn ++ (" 不是有效的日期格式 (YYYY-MM-DD)")

def numMsg (fn : String) : String := keyRef fn ++ (" 必須是有效數字")

def minMsg (fn : String) (m : Int) : String :=
  keyRef fn ++ ((" 的值小於最小值 ") ++ toString m)

def maxMsg (fn : String) (m : Int) : String :=
  keyRef fn ++ ((" 的值大於最大值 ") ++ toString m)

def lenMsg (fn : String) (n : Nat) : String :=
  keyRef fn ++ ((" 超過最大長度 ") ++ toString n)

def optMsg (fn : String) (opts : List String) : String :=
  keyRef fn ++ ((" 的值必須是: ") ++ String.intercalate (", ") opts)

def patMsg (fn : String) : String := keyRef fn ++ (" 格式不正確")

/-- The "missing required field" message: the only message that uses the
field's `description`, falling back to its key. -/
def missingMsg (fn : String) (fc : FieldSpec) : String :=
  ("缺少必需字段: ") ++ fc.description.getD fn

/-- The "template does not exist" message appended by `validate_data`. -/
def unknownMsg (name : String) : String :=
  ("模板 ") ++ sQuote ++ name ++ sQuote ++ (" 不存在")

/-- `str(KeyError(name))` — what `generate_statistics_report` puts in
its error dict when the template lookup raises. -/
def keyErrorStr (name : String) : String := sQuote ++ name ++ sQuote

/-- The `min_value` bound check: `if "min_value" in field_config and
num_value < field_config["min_value"]`. -/
def minCheck (fn : String) (q : Rat) : Option Int → List String
  | some m => if q < (m : Rat) then [minMsg fn m] else []
  | none => []

/-- The `max_value` bound check: `if "max_value" in field_config and
num_value > field_config["max_value"]`. -/
def maxCheck (fn : String) (q : Rat) : Option Int → List String
  | some m => if (m : Rat) < q then [maxMsg fn m] else []
  | none => []

/-- The `number` branch of `validate_data`: `float(value)`, with the
`ValueError` handler appending one message and skipping the bound
checks; otherwise one message per violated (strict-failure, hence
inclusive-acceptance) bound. -/
def numberCheck (fn : String) (v : Value) (mn mx : Option Int) : List String :=
  match pyFloat v with
  | none => [numMsg fn]
  | some q => minCheck fn q mn ++ maxCheck fn q mx

/-- The type-specific dispatch of `validate_data` (the `elif` chain on
`field_config.get("type", "text")`); unrecognised types have no
type-specific check. -/
def typeCheck (fn : String) (v : Value) (fc : FieldSpec) : List String :=
  if fc.type = ("email") then (if validateEmail v then [] else [emailMsg fn])
  else if fc.type = ("phone") then (if validatePhone v then [] else [phoneMsg fn])
  else if fc.type = ("date") then (if validateDate v then [] else [dateMsg fn])
  else if fc.type = ("number") then numberCheck fn v fc.min_value fc.max_value
  else []

/-- The `max_length` check: `len(str(value)) > max_length`. -/
def lengthCheck (fn : String) (v : Value) (fc : FieldSpec) : List String :=
  match fc.max_length with
  | some n => if n < (pyStr v).length then [lenMsg fn n] else []
  | none => []

/-- Python `value in options` for a scalar against string options: only
a string value can equal a string option. -/
def valueInOptions (v : Value) (opts : List String) : Bool :=
  match v with
  | .s t => opts.contains t
  | _ => false

/-- The `options` membership check. -/
def optionsCheck (fn : String) (v : Value) (fc : FieldSpec) : List String :=
  match fc.options with
  | some opts => if valueInOptions v opts then [] else [optMsg fn opts]
  | none => []

/-- The `validation_pattern` check: `re.match(pattern, str(value))`. -/
def patternCheck (fn : String) (v : Value) (fc : FieldSpec) : List String :=
  match fc.validation_pattern with
  | some p => if reMatch p (pyStr v) then [] else [patMsg fn]
  | none => []

/-- All violations one field's value collects, in the source's order:
type-specific check, then `max_length`, `options`,
`validation_pattern`. -/
def fieldErrors (fn : String) (v : Value) (fc : FieldSpec) : List String :=
  typeCheck fn v fc ++ lengthCheck fn v fc ++ optionsCheck fn v fc ++ patternCheck fn v fc

/-- The required-field test of `validate_data`'s first loop:
`field_config.get("required", False)` and (`field_name not in data` or
`not str(data[field_name]).strip()`). -/
def requiredMissing (data : List (String × Value)) (fn : String) (fc : FieldSpec) : Bool :=
  fc.required &&
    (match data.lookup fn with
     | none => true
     | some v => (pyStrip (pyStr v)).isEmpty)

/-- `validate_data`: the list this call leaves in
`self.validation_errors`.  An unregistered template name appends its
message and returns immediately; otherwise the first loop walks the
template's fields appending required-field omissions, and the second
loop walks the record appending `fieldErrors` for keys the template
defines. -/
def validationErrors (templates : List (String × Template))
    (data : List (String × Value)) (name : String) : List String :=
  match templates.lookup name with
  | none => [unknownMsg name]
  | some tpl =>
    let req := tpl.fields.foldl
      (fun acc p => if requiredMissing data p.1 p.2 then acc ++ [missingMsg p.1 p.2] else acc) []
    data.foldl
      (fun acc p =>
        match tpl.fields.lookup p.1 with
        | some fc => acc ++ fieldErrors p.1 p.2 fc
        | none => acc) req

/-- The boolean verdict `validate_data` returns
(`len(self.validation_errors) == 0`; the unknown-template early return
also yields `False`, its error list being nonempty). -/
def validateData (templates : List (String × Template))
    (data : List (String × Value)) (name : String) : Bool :=
  (validationErrors templates data name).isEmpty

/-- The required-field pass, written declaratively: one message per
required-and-missing field, in template field order. -/
def requiredErrorsList (fields : List (String × FieldSpec))
    (data : List (String × Value)) : List String :=
  fields.filterMap
    (fun p => if requiredMissing data p.1 p.2 then some (missingMsg p.1 p.2) else none)

/-- The per-field content pass, written declaratively: the field errors
of each record entry whose key the template defines, in record
iteration order. -/
def contentErrorsList (fields : List (String × FieldSpec))
    (data : List (String × Value)) : List String :=
  data.flatMap
    (fun p =>
      match fields.lookup p.1 with
      | some fc => fieldErrors p.1 p.2 fc
      | none => [])

/-- Per-field aggregate of `generate_statistics_report`. -/
structure FieldStats where
  total_filled : Nat
  total_empty : Nat
  fill_rate : Rat
  unique_values : List String
  unique_count : Nat
deriving Repr

/-- Adding to the `unique_values` set (a Python `set` of strings,
modelled as a duplicate-free list). -/
def addUnique (l : List String) (s : String) : List String :=
  if l.contains s then l else l ++ [s]

/-- The per-field counting loop: a record counts as filled exactly when
the key is present with a truthy value (`if field_name in data and
data[field_name]`), in which case its `str` enters the value set. -/
def fieldStatsRaw (dataList : List (List (String × Value))) (fn : String) :
    Nat × Nat × List String :=
  dataList.foldl
    (fun acc data =>
      match data.lookup fn with
      | some v =>
        if pyTruthy v then (acc.1 + 1, acc.2.1, addUnique acc.2.2 (pyStr v))
        else (acc.1, acc.2.1 + 1, acc.2.2)
      | none => (acc.1, acc.2.1 + 1, acc.2.2))
    (0, 0, [])

/-- One field's statistics block, including the division-guarded fill
rate. -/
def fieldStats (dataList : List (List (String × Value))) (fn : String) : FieldStats :=
  let r := fieldStatsRaw dataList fn
  { total_filled := r.1
    total_empty := r.2.1
    fill_rate := if 0 < dataList.length then (r.1 : Rat) / (dataList.length : Rat) * 100 else 0
    unique_values := r.2.2
    unique_count := r.2.2.length }

/-- The statistics dict `generate_statistics_report` builds (its
display-only entries — template name, generation time, field type —
are omitted). -/
structure StatsReport where
  total_records : Nat
  field_statistics : List (String × FieldStats)
  valid_records : Nat
  invalid_records : Nat
  common_errors : List (String × Nat)
deriving Repr

/-- `common_errors[error] += 1` with insertion on first occurrence
(Python dict increment-or-insert; keys stay unique and ordered by first
appearance). -/
def bump : List (String × Nat) → String → List (String × Nat)
  | [], e => [(e, 1)]
  | (k, n) :: t, e => if k = e then (k, n + 1) :: t else (k, n) :: bump t e

def tallyErrors (m : List (String × Nat)) (errs : List String) : List (String × Nat) :=
  errs.foldl bump m

/-- Count held in an association table (0 when the key is absent). -/
def countOf : List (String × Nat) → String → Nat
  | [], _ => 0
  | (k, n) :: t, e => if k = e then n else countOf t e

/-- One iteration of the validation-summary loop of
`generate_statistics_report`: run `validate_data` on the record; a pass
bumps `valid_records`, a failure bumps `invalid_records` and tallies
every message the call produced. -/
def statsStep (templates : List (String × Template)) (name : String)
    (acc : Nat × Nat × List (String × Nat)) (data : List (String × Value)) :
    Nat × Nat × List (String × Nat) :=
  let errs := validationErrors templates data name
  if errs.isEmpty then (acc.1 + 1, acc.2.1, acc.2.2)
  else (acc.1, acc.2.1 + 1, tallyErrors acc.2.2 errs)

/-- `generate_statistics_report`: looking up an unregistered template
name raises `KeyError`, which the surrounding handler turns into an
error result; otherwise the report carries the per-field statistics and
the validation summary, the latter running `validate_data` once per
record and tallying each produced message. -/
def generateStatisticsReport (templates : List (String × Template))
    (dataList : List (List (String × Value))) (name : String) :
    Except String StatsReport :=
  match templates.lookup name with
  | none => .error (keyErrorStr name)
  | some tpl =>
    let fieldSt := tpl.fields.map (fun p => (p.1, fieldStats dataList p.1))
    let summary := dataList.foldl (statsStep templates name)
      (0, 0, ([] : List (String × Nat)))
    .ok
      { total_records := dataList.length
        field_statistics := fieldSt
        valid_records := summary.1
        invalid_records := summary.2.1
        common_errors := summary.2.2 }

/-- The pattern `^[A-Z0-9]+$` (of `patient_id`). -/
def patIdU : Regex :=
  .seq (.clsRep [('A','Z'),('0','9')] 1 none) .endAnchor

/-- The pattern `^[a-zA-Z\s一-鿿]+$` (of `patient_name`); the
`\s` class is its ASCII content. -/
def patNameCls : List (Char × Char) :=
  [('a','z'),('A','Z'),(' ',' '),('\t','\t'),('\n','\n'),('\r','\r'),
   ('\x0b','\x0b'),('\x0c','\x0c'),('一','鿿')]

def patName : Regex := .seq (.clsRep patNameCls 1 none) .endAnchor

/-- The pattern `^EMP[0-9]{4,8}$` (of `employee_id`). -/
def patEmp : Regex :=
  .seq (.lit 'E') (.seq (.lit 'M') (.seq (.lit 'P')
  (.seq (.clsRep [('0','9')] 4 (some 8)) .endAnchor)))

/-- The `medical_form` fields of the source's default configuration
(the subset of spec keys that drive validation). -/
def medicalFields : List (String × FieldSpec) :=
  [("patient_name",
    { type := ("text"), required := true, max_length := some 50,
      validation_pattern := some patName, description := some ("患者姓名") }),
   ("patient_id",
    { type := ("text"), required := true, max_length := some 20,
      validation_pattern := some patIdU, description := some ("患者ID") }),
   ("date_of_birth",
    { type := ("date"), required := true, description := some ("出生日期") }),
   ("gender",
    { type := ("select"), required := true,
      options := some [("Male"), ("Female"), ("Other"), ("Prefer not to say")],
      description := some ("性別") }),
   ("emergency_contact",
    { type := ("boolean"), description := some ("是否有緊急聯絡人") }),
   ("phone",
    { type := ("phone"), max_length := some 20,
      validation_pattern := some (.seq (.clsRep [('0','9'),('-','-'),('+','+'),(' ',' '),('\t','\t'),('\n','\n'),('\r','\r'),('\x0b','\x0b'),('\x0c','\x0c'),('(','('),(')',')')] 1 none) .endAnchor),
      description := some ("電話號碼") }),
   ("address",
    { type := ("textarea"), max_length := some 200, description := some ("居住地址") }),
   ("insurance_id",
    { type := ("text"), max_length := some 30, description := some ("保險編號") })]

/-- The `salary` field of the `employee_form` template. -/
def salarySpec : FieldSpec :=
  { type := ("number"), min_value := some 0, max_value := some 10000000,
    description := some ("薪資") }

def sampleTemplates : List (String × Template) :=
  [(("medical_form"), ⟨medicalFields⟩)]

/-- A record passing `medical_form` validation (the source's
`create_sample_data` shape, ASCII name). -/
def okRecord : List (String × Value) :=
  [(("patient_name"), .s ("Chen Da Ming")),
   (("patient_id"), .s ("P67890")),
   (("date_of_birth"), .s ("1985-03-22")),
   (("gender"), .s ("Male")),
   (("emergency_contact"), .b true),
   (("phone"), .s ("+886-2-9876-5432"))]

example : validateData sampleTemplates okRecord ("medical_form") = true := by decide
example : validationErrors sampleTemplates
    [(("patient_id"), .s ("p123")), (("date_of_birth"), .s ("1990-13-40"))]
    ("medical_form")
  = [("缺少必需字段: 患者姓名"), ("缺少必需字段: 性別"),
     patMsg ("patient_id"), dateMsg ("date_of_birth")] := by decide

/-- `float(value)` as a raising operation: `.error` is the
`ValueError` the source's handlers catch. -/
def pyFloatE (v : Value) : Except String Rat :=
  match pyFloat v with
  | some q => .ok q
  | none => .error ("ValueError: could not convert to float")

/-- `datetime.strptime(value, "%Y-%m-%d")` as a raising operation. -/
def strptimeE (s : String) : Except String (Nat × Nat × Nat) :=
  match strptimeYMD s with
  | some d => .ok d
  | none => .error ("ValueError: does not match format")

/-- `_validate_date` with its `try/except ValueError` explicit. -/
def validateDateE (v : Value) : Bool :=
  match strptimeE (pyStr v) with
  | .ok _ => true
  | .error _ => false

/-- The `number` branch with its `try/except ValueError` explicit: the
raising `float()` is the only fallible step, and its error is caught
and turned into the one "must be a valid number" message. -/
def numberCheckE (fn : String) (v : Value) (mn mx : Option Int) :
    Except String (List String) :=
  match pyFloatE v with
  | .error _ => .ok [numMsg fn]
  | .ok q => .ok (minCheck fn q mn ++ maxCheck fn q mx)

/-- The type dispatch with exception plumbing explicit. -/
def typeCheckE (fn : String) (v : Value) (fc : FieldSpec) :
    Except String (List String) :=
  if fc.type = ("email") then .ok (if validateEmail v then [] else [emailMsg fn])
  else if fc.type = ("phone") then .ok (if validatePhone v then [] else [phoneMsg fn])
  else if fc.type = ("date") then .ok (if validateDateE v then [] else [dateMsg fn])
  else if fc.type = ("number") then numberCheckE fn v fc.min_value fc.max_value
  else .ok []

/-- The whole per-field check with exception plumbing explicit: an
uncaught exception anywhere inside would surface as `.error`. -/
def fieldErrorsE (fn : String) (v : Value) (fc : FieldSpec) :
    Except String (List String) := do
  let te ← typeCheckE fn v fc
  pure (te ++ lengthCheck fn v fc ++ optionsCheck fn v fc ++ patternCheck fn v fc)

/-- Boolean string-prefix test over the character lists. -/
def strPre (p s : String) : Bool := p.data.isPrefixOf s.data

theorem isPrefixOf_append_self (l r : List Char) : l.isPrefixOf (l ++ r) = true := by
  induction l with
  | nil => simp
  | cons a t ih => simp [List.isPrefixOf_cons₂, ih]

theorem strPre_append (a b : String) : strPre a (a ++ b) = true := by
  have h : (a ++ b).data = a.data ++ b.data := String.data_append a b
  simp [strPre, h, isPrefixOf_append_self]

theorem lookup_append_single {β : Type} (data : List (String × β)) (k fn : String) (v : β)
    (h : fn ≠ k) : (data ++ [(k, v)]).lookup fn = data.lookup fn := by
  induction data with
  | nil =>
    have hbk : (fn == k) = false := beq_eq_false_iff_ne.mpr h
    simp [List.lookup_cons, hbk]
  | cons p t ih =>
    obtain ⟨pk, pv⟩ := p
    cases hb : fn == pk <;> simp [List.lookup_cons, hb, ih]

theorem key_ne_of_lookup_none {β : Type} (l : List (String × β)) (k : String)
    (h : l.lookup k = none) : ∀ p ∈ l, p.1 ≠ k := by
  induction l with
  | nil => intro p hp; simp at hp
  | cons q t ih =>
    obtain ⟨qk, qv⟩ := q
    intro p hp
    rw [List.lookup_cons] at h
    cases hb : k == qk
    · rw [hb] at h
      rcases List.mem_cons.mp hp with hq | ht
      · subst hq
        intro hk
        exact (beq_eq_false_iff_ne.mp hb) hk.symm
      · exact ih h p ht
    · rw [hb] at h
      simp at h

theorem reqFoldl (fields : List (String × FieldSpec)) (data : List (String × Value))
    (init : List String) :
    fields.foldl
      (fun acc p => if requiredMissing data p.1 p.2 then acc ++ [missingMsg p.1 p.2] else acc) init
    = init ++ requiredErrorsList fields data := by
  induction fields generalizing init with
  | nil => simp [requiredErrorsList]
  | cons h t ih =>
    by_cases hc : requiredMissing data h.1 h.2 <;>
      simp [requiredErrorsList, List.filterMap_cons, hc, ih,
        List.append_assoc]

theorem contentFoldl (fields : List (String × FieldSpec)) (data : List (String × Value))
    (init : List String) :
    data.foldl
      (fun acc p =>
        match fields.lookup p.1 with
        | some fc => acc ++ fieldErrors p.1 p.2 fc
        | none => acc) init
    = init ++ contentErrorsList fields data := by
  induction data generalizing init with
  | nil => simp [contentErrorsList]
  | cons h t ih =>
    cases hl : fields.lookup h.1 <;>
      simp [contentErrorsList, hl, ih, List.append_assoc]

theorem countOf_bump (m : List (String × Nat)) (e x : String) :
    countOf (bump m e) x = countOf m x + (if x = e then 1 else 0) := by
  induction m with
  | nil =>
    by_cases hx : e = x
    · subst hx
      simp [bump, countOf]
    · have hx2 : ¬ x = e := fun hh => hx hh.symm
      simp [bump, countOf, hx, hx2]
  | cons p t ih =>
    obtain ⟨pk, pn⟩ := p
    by_cases hk : pk = e
    · subst hk
      by_cases hx : pk = x
      · subst hx
        simp [bump, countOf]
      · have hx2 : ¬ x = pk := fun hh => hx hh.symm
        simp [bump, countOf, hx, hx2]
    · by_cases hx : pk = x
      · subst hx
        simp [bump, countOf, hk]
      · simp [bump, countOf, hk, hx, ih]

theorem countOf_tally (errs : List String) (m : List (String × Nat)) (e : String) :
    countOf (tallyErrors m errs) e = countOf m e + errs.count e := by
  induction errs generalizing m with
  | nil => simp [tallyErrors, List.count_nil]
  | cons a t ih =>
    have h1 : tallyErrors m (a :: t) = tallyErrors (bump m a) t := rfl
    rw [h1, ih, countOf_bump, List.count_cons]
    by_cases he : e = a
    · subst he
      simp
      omega
    · have hb : (a == e) = false := beq_eq_false_iff_ne.mpr (fun hh => he hh.symm)
      simp [he, hb]

theorem filter_length_add {α : Type} (p : α → Bool) (l : List α) :
    (l.filter p).length + (l.filter (fun a => !p a)).length = l.length := by
  induction l with
  | nil => rfl
  | cons a t ih => cases hp : p a <;> simp [List.filter_cons, hp] <;> omega

theorem statsFoldl (templates : List (String × Template)) (name : String)
    (dataList : List (List (String × Value))) (acc : Nat × Nat × List (String × Nat)) :
    (dataList.foldl (statsStep templates name) acc).1
      = acc.1 + (dataList.filter (fun d => validateData templates d name)).length
    ∧ (dataList.foldl (statsStep templates name) acc).2.1
      = acc.2.1 + (dataList.filter (fun d => !validateData templates d name)).length
    ∧ ∀ e, countOf (dataList.foldl (statsStep templates name) acc).2.2 e
      = countOf acc.2.2 e
        + (dataList.flatMap (fun d => validationErrors templates d name)).count e := by
  induction dataList generalizing acc with
  | nil => simp
  | cons d t ih =>
    have hdef : validateData templates d name
        = (validationErrors templates d name).isEmpty := rfl
    cases hv : validateData templates d name
    · have he : (validationErrors templates d name).isEmpty = false := hdef ▸ hv
      have hstep : statsStep templates name acc d
          = (acc.1, acc.2.1 + 1, tallyErrors acc.2.2 (validationErrors templates d name)) := by
        simp [statsStep, he]
      rcases ih (statsStep templates name acc d) with ⟨ih1, ih2, ih3⟩
      refine ⟨?_, ?_, ?_⟩
      · rw [List.foldl_cons, ih1, hstep, List.filter_cons]
        simp [hv]
      · rw [List.foldl_cons, ih2, hstep, List.filter_cons]
        simp [hv]
        omega
      · intro e
        rw [List.foldl_cons, ih3 e, hstep, List.flatMap_cons, List.count_append,
          countOf_tally]
        omega
    · have he : (validationErrors templates d name).isEmpty = true := hdef ▸ hv
      have hnil : validationErrors templates d name = [] := List.isEmpty_iff.mp he
      have hstep : statsStep templates name acc d = (acc.1 + 1, acc.2.1, acc.2.2) := by
        simp [statsStep, he]
      rcases ih (statsStep templates name acc d) with ⟨ih1, ih2, ih3⟩
      refine ⟨?_, ?_, ?_⟩
      · rw [List.foldl_cons, ih1, hstep, List.filter_cons]
        simp [hv]
        omega
      · rw [List.foldl_cons, ih2, hstep, List.filter_cons]
        simp [hv]
      · intro e
        rw [List.foldl_cons, ih3 e, hstep, List.flatMap_cons, hnil]
        simp

theorem daysInMonth_le (y m : Nat) : daysInMonth y m ≤ 31 := by
  unfold daysInMonth
  split
  · split <;> omega
  · split <;> omega

/-- Modelled from the spec: claim C4 reads `YYYY-MM-DD` as exactly a
four-digit year, a two-digit month and a two-digit day separated by
hyphens, denoting a real calendar date.  Comparison point for the
refinement; the source's parser is `strptimeCore`. -/
def dateStrictCore : List Char → Bool
  | [y1, y2, y3, y4, c1, m1, m2, c2, d1, d2] =>
    decide (c1 = '-') && decide (c2 = '-')
    && ([y1, y2, y3, y4, m1, m2, d1, d2]).all isDigitChar
    && decide (1 ≤ natOfDigits [y1, y2, y3, y4])
    && decide (1 ≤ digitVal m1 * 10 + digitVal m2)
    && decide (digitVal m1 * 10 + digitVal m2 ≤ 12)
    && decide (1 ≤ digitVal d1 * 10 + digitVal d2)
    && decide (digitVal d1 * 10 + digitVal d2
        ≤ daysInMonth (natOfDigits [y1, y2, y3, y4]) (digitVal m1 * 10 + digitVal m2))
  | _ => false

/-- Modelled from the spec (see `dateStrictCore`). -/
def dateStrictSpec (s : String) : Bool := dateStrictCore s.data

theorem strict_refines (l : List Char) (h : dateStrictCore l = true) :
    (strptimeCore l).isSome = true := by
  unfold dateStrictCore at h
  split at h
  case h_2 => exact absurd h (by simp)
  case h_1 y1 y2 y3 y4 c1 m1 m2 c2 d1 d2 =>
    simp only [Bool.and_eq_true, decide_eq_true_eq, List.all_cons, List.all_nil,
      Bool.and_true] at h
    obtain ⟨⟨⟨⟨⟨⟨⟨hc1, hc2⟩, hdig⟩, hy⟩, hm1⟩, hm2⟩, hd1⟩, hd2⟩ := h
    obtain ⟨hy1, hy2, hy3, hy4, hmm1, hmm2, hdd1, hdd2⟩ := hdig
    subst hc1
    subst hc2
    have hm2ne : ¬ (m2 = '-') := by
      intro hcontra
      rw [hcontra] at hmm2
      exact absurd hmm2 (by decide)
    have h31 : digitVal d1 * 10 + digitVal d2 ≤ 31 :=
      le_trans hd2 (daysInMonth_le _ _)
    have hday : parseDay [d1, d2] = some (digitVal d1 * 10 + digitVal d2) := by
      simp [parseDay, hdd1, hdd2, hd1, h31]
    have hMD : parseMD [m1, m2, '-', d1, d2]
        = some (digitVal m1 * 10 + digitVal m2, digitVal d1 * 10 + digitVal d2) := by
      simp [parseMD, hm2ne, hmm1, hmm2, hm1, hm2, hday]
    simp [strptimeCore, hMD, hy1, hy2, hy3, hy4, hy, hd1, hd2]

theorem msg_pre_email (fn : String) : strPre (keyRef fn) (emailMsg fn) = true :=
  strPre_append _ _

theorem msg_pre_phone (fn : String) : strPre (keyRef fn) (phoneMsg fn) = true :=
  strPre_append _ _

theorem msg_pre_date (fn : String) : strPre (keyRef fn) (dateMsg fn) = true :=
  strPre_append _ _

theorem msg_pre_num (fn : String) : strPre (keyRef fn) (numMsg fn) = true :=
  strPre_append _ _

theorem msg_pre_min (fn : String) (m : Int) : strPre (keyRef fn) (minMsg fn m) = true :=
  strPre_append _ _

theorem msg_pre_max (fn : String) (m : Int) : strPre (keyRef fn) (maxMsg fn m) = true :=
  strPre_append _ _

theorem msg_pre_len (fn : String) (n : Nat) : strPre (keyRef fn) (lenMsg fn n) = true :=
  strPre_append _ _

theorem msg_pre_opt (fn : String) (opts : List String) :
    strPre (keyRef fn) (optMsg fn opts) = true :=
  strPre_append _ _

theorem msg_pre_pat (fn : String) : strPre (keyRef fn) (patMsg fn) = true :=
  strPre_append _ _

theorem minCheck_pre (fn : String) (q : Rat) (mn : Option Int) :
    ∀ e ∈ minCheck fn q mn, strPre (keyRef fn) e = true := by
  intro e he
  cases mn with
  | none => simp [minCheck] at he
  | some m =>
    simp only [minCheck] at he
    split at he
    · simp at he
      subst he
      exact msg_pre_min _ _
    · simp at he

theorem maxCheck_pre (fn : String) (q : Rat) (mx : Option Int) :
    ∀ e ∈ maxCheck fn q mx, strPre (keyRef fn) e = true := by
  intro e he
  cases mx with
  | none => simp [maxCheck] at he
  | some m =>
    simp only [maxCheck] at he
    split at he
    · simp at he
      subst he
      exact msg_pre_max _ _
    · simp at he

theorem numberCheck_pre (fn : String) (v : Value) (mn mx : Option Int) :
    ∀ e ∈ numberCheck fn v mn mx, strPre (keyRef fn) e = true := by
  intro e he
  unfold numberCheck at he
  split at he
  · simp at he
    subst he
    exact msg_pre_num fn
  · rcases List.mem_append.mp he with h | h
    · exact minCheck_pre fn _ mn e h
    · exact maxCheck_pre fn _ mx e h

theorem typeCheck_pre (fn : String) (v : Value) (fc : FieldSpec) :
    ∀ e ∈ typeCheck fn v fc, strPre (keyRef fn) e = true := by
  intro e he
  unfold typeCheck at he
  split_ifs at he
  all_goals try simp at he
  all_goals
    first
      | exact numberCheck_pre fn v fc.min_value fc.max_value e he
      | (subst he
         first
           | exact msg_pre_email fn
           | exact msg_pre_phone fn
           | exact msg_pre_date fn)

theorem lengthCheck_pre (fn : String) (v : Value) (fc : FieldSpec) :
    ∀ e ∈ lengthCheck fn v fc, strPre (keyRef fn) e = true := by
  intro e he
  unfold lengthCheck at he
  split at he
  · split at he
    · simp at he
      subst he
      exact msg_pre_len _ _
    · simp at he
  · simp at he

theorem optionsCheck_pre (fn : String) (v : Value) (fc : FieldSpec) :
    ∀ e ∈ optionsCheck fn v fc, strPre (keyRef fn) e = true := by
  intro e he
  unfold optionsCheck at he
  split at he
  · split at he
    · simp at he
    · simp at he
      subst he
      exact msg_pre_opt _ _
  · simp at he

theorem patternCheck_pre (fn : String) (v : Value) (fc : FieldSpec) :
    ∀ e ∈ patternCheck fn v fc, strPre (keyRef fn) e = true := by
  intro e he
  unfold patternCheck at he
  split at he
  · split at he
    · simp at he
    · simp at he
      subst he
      exact msg_pre_pat fn
  · simp at he

/-- C1: for every record and every template name absent from the
registry, `validate_data` surfaces the unknown-template failure —
exactly the one "template does not exist" message and verdict `False`,
never a silent default — and `generate_statistics_report` invoked with
the same name fails with the same unknown-template error (its
`KeyError`, surfaced as an error result). -/
theorem C1_unknown_template (templates : List (String × Template))
    (data : List (String × Value)) (dataList : List (List (String × Value)))
    (name : String) (h : templates.lookup name = none) :
    validationErrors templates data name = [unknownMsg name]
    ∧ validateData templates data name = false
    ∧ generateStatisticsReport templates dataList name
        = .error (keyErrorStr name) := by
  refine ⟨?_, ?_, ?_⟩
  · simp [validationErrors, h]
  · simp [validateData, validationErrors, h]
  · simp [generateStatisticsReport, h]

theorem C1_witness :
    validationErrors sampleTemplates okRecord ("no_such_form")
        = [unknownMsg ("no_such_form")]
    ∧ validateData sampleTemplates okRecord ("no_such_form") = false
    ∧ generateStatisticsReport sampleTemplates [okRecord] ("no_such_form")
        = .error (keyErrorStr ("no_such_form")) :=
  C1_unknown_template sampleTemplates okRecord [okRecord] ("no_such_form") rfl

/-- A validation pattern carrying no `$` anchor of its own:
`[A-Z]+`. -/
def patUnanchored : Regex := .clsRep [('A','Z')] 1 none

/-- C2 counterexample: with `validation_pattern = [A-Z]+`, the value
`"AB-12"` is only a partial (prefix) match — `re.fullmatch` would
reject it — yet the source's pattern check (built on `re.match`, which
anchors at the start only) raises no violation.  So the check does not
coincide with "fully match, anchored at both ends", and a partial match
is not always a failure. -/
theorem C2_counterexample :
    patternCheck ("code") (.s ("AB-12"))
      ({ validation_pattern := some patUnanchored } : FieldSpec) = []
    ∧ reMatch patUnanchored ("AB-12") = true
    ∧ reFullmatch patUnanchored ("AB-12") = false :=
  ⟨by decide, by decide, by decide⟩

/-- C2 amended: the pattern check succeeds exactly when `re.match`
succeeds, i.e. when some prefix of the value's string representation
matches the pattern (anchored at the start only).  For a pattern that
itself ends in `$` — such as `^[A-Z0-9]+$` — this coincides with a
full match: `"AB-12"` is rejected and `"AB12"` accepted. -/
theorem C2_pattern_amended :
    (∀ (fn : String) (v : Value) (fc : FieldSpec) (p : Regex),
      fc.validation_pattern = some p →
      (patternCheck fn v fc = [] ↔ reMatch p (pyStr v) = true))
    ∧ patternCheck ("patient_id") (.s ("AB-12"))
        ({ validation_pattern := some patIdU } : FieldSpec) = [patMsg ("patient_id")]
    ∧ patternCheck ("patient_id") (.s ("AB12"))
        ({ validation_pattern := some patIdU } : FieldSpec) = [] := by
  refine ⟨?_, by decide, by decide⟩
  intro fn v fc p hp
  simp only [patternCheck, hp]
  cases h : reMatch p (pyStr v) <;> simp [h]

theorem C2_witness :
    patternCheck ("patient_id") (.s ("P67890"))
      ({ validation_pattern := some patIdU } : FieldSpec) = [] :=
  (C2_pattern_amended.1 ("patient_id") (.s ("P67890")) _ patIdU rfl).mpr (by decide)

/-- The `patient_id` field specification of the default
configuration. -/
def patientIdSpec : FieldSpec :=
  { type := ("text"), required := true, max_length := some 20,
    validation_pattern := some patIdU, description := some ("患者ID") }

/-- C3 counterexample: `patient_id` carries the human-readable
description `患者ID`, yet the violation its failed pattern check
appends names the field by its key `patient_id`; no message built on
the description appears.  Only the required-field-missing message uses
the description. -/
theorem C3_counterexample :
    patientIdSpec.description = some ("患者ID")
    ∧ fieldErrors ("patient_id") (.s ("ab")) patientIdSpec = [patMsg ("patient_id")]
    ∧ (fieldErrors ("patient_id") (.s ("ab")) patientIdSpec).contains
        (patMsg ("患者ID")) = false
    ∧ patMsg ("patient_id") ≠ patMsg ("患者ID") :=
  ⟨rfl, by decide, by decide, by decide⟩

/-- C3 amended: every message a failed check of the Field Validator
appends opens with the quoted field key (never the description); the
description (with key fallback) is used only by the record validator's
required-field-missing message. -/
theorem C3_message_naming :
    (∀ (fn : String) (v : Value) (fc : FieldSpec),
      (fieldErrors fn v fc).all (fun e => strPre (keyRef fn) e) = true)
    ∧ (∀ (fn : String) (fc : FieldSpec),
      missingMsg fn fc = ("缺少必需字段: ") ++ fc.description.getD fn) := by
  constructor
  · intro fn v fc
    rw [List.all_eq_true]
    intro e he
    unfold fieldErrors at he
    rcases List.mem_append.mp he with h | h
    · rcases List.mem_append.mp h with h2 | h2
      · rcases List.mem_append.mp h2 with h3 | h3
        · exact typeCheck_pre fn v fc e h3
        · exact lengthCheck_pre fn v fc e h3
      · exact optionsCheck_pre fn v fc e h2
    · exact patternCheck_pre fn v fc e h
  · intro fn fc
    rfl

/-- C4 counterexample: the claim requires a two-digit month and day
(rejecting any other digit layout), but `strptime`'s `%m`/`%d` also
accept a single digit without a leading zero: the source accepts
`"1990-1-5"`, which the claim's exact `YYYY-MM-DD` layout
(`dateStrictSpec`) rejects. -/
theorem C4_counterexample :
    validateDate (.s ("1990-1-5")) = true ∧ dateStrictSpec ("1990-1-5") = false :=
  ⟨by decide, by decide⟩

/-- C4 amended: a `date` value is accepted exactly when `strptime`
parses it as four-digit year, hyphen, month, hyphen, day — where month
and day may be one OR two digits (leading zero optional) — and the
result is a real calendar date.  Every string of the claim's strict
`YYYY-MM-DD` layout is accepted; any other separator or ordering is
rejected, out-of-range dates such as `"1990-13-40"` are rejected, and
the rejection surfaces as the date-format violation message. -/
theorem C4_date_amended :
    (∀ s : String, dateStrictSpec s = true → validateDate (.s s) = true)
    ∧ validateDate (.s ("1990-1-5")) = true
    ∧ validateDate (.s ("1990-13-40")) = false
    ∧ validateDate (.s ("1990/01/05")) = false
    ∧ validateDate (.s ("15-01-1990")) = false
    ∧ validateDate (.s ("1990-02-31")) = false
    ∧ typeCheck ("date_of_birth") (.s ("1990-13-40")) ({ type := ("date") } : FieldSpec)
        = [dateMsg ("date_of_birth")] := by
  refine ⟨?_, by decide, by decide, by decide, by decide, by decide, by decide⟩
  intro s hs
  exact strict_refines s.data hs

theorem C4_witness : validateDate (.s ("2024-01-15")) = true :=
  C4_date_amended.1 ("2024-01-15") (by decide)

/-- C5: for a `number` field, an unparsable value yields exactly the
one "must be a valid number" message with the bound checks skipped;
a parsed value passes with no message exactly when it lies inclusively
within the declared bounds, with one message per violated bound; with
`min_value = 0, max_value = 100`, the values 0 and 100 are accepted and
-1 and 101 each rejected with the corresponding bound message. -/
theorem C5_number_check :
    (∀ (fn : String) (v : Value) (mn mx : Option Int),
      pyFloat v = none → numberCheck fn v mn mx = [numMsg fn])
    ∧ (∀ (fn : String) (v : Value) (mn mx : Option Int) (q : Rat),
      pyFloat v = some q →
      (numberCheck fn v mn mx = [] ↔
        (∀ m, mn = some m → (m : Rat) ≤ q) ∧ (∀ m, mx = some m → q ≤ (m : Rat))))
    ∧ numberCheck ("score") (.i 0) (some 0) (some 100) = []
    ∧ numberCheck ("score") (.i 100) (some 0) (some 100) = []
    ∧ numberCheck ("score") (.i (-1)) (some 0) (some 100) = [minMsg ("score") 0]
    ∧ numberCheck ("score") (.i 101) (some 0) (some 100) = [maxMsg ("score") 100]
    ∧ numberCheck ("score") (.s ("AB")) (some 0) (some 100) = [numMsg ("score")]
    ∧ (∀ (fn : String) (v : Value) (fc : FieldSpec), fc.type = ("number") →
        typeCheck fn v fc = numberCheck fn v fc.min_value fc.max_value) := by
  refine ⟨?_, ?_, by decide, by decide, by decide, by decide, by decide, ?_⟩
  · intro fn v mn mx h
    simp [numberCheck, h]
  · intro fn v mn mx q h
    simp only [numberCheck, h]
    constructor
    · intro hempty
      rcases List.append_eq_nil.mp hempty with ⟨hA, hB⟩
      constructor
      · intro m hm
        subst hm
        simp only [minCheck] at hA
        by_cases hq : q < (m : Rat)
        · rw [if_pos hq] at hA
          simp at hA
        · exact not_lt.mp hq
      · intro m hm
        subst hm
        simp only [maxCheck] at hB
        by_cases hq : (m : Rat) < q
        · rw [if_pos hq] at hB
          simp at hB
        · exact not_lt.mp hq
    · rintro ⟨h1, h2⟩
      have hA : minCheck fn q mn = [] := by
        cases mn with
        | none => rfl
        | some m =>
          simp only [minCheck]
          rw [if_neg (not_lt.mpr (h1 m rfl))]
      have hB : maxCheck fn q mx = [] := by
        cases mx with
        | none => rfl
        | some m =>
          simp only [maxCheck]
          rw [if_neg (not_lt.mpr (h2 m rfl))]
      rw [hA, hB]
      rfl
  · intro fn v fc htype
    simp [typeCheck, htype]

theorem C5_witness :
    numberCheck ("salary") (.i 80000) (some 0) (some 10000000) = []
    ∧ typeCheck ("salary") (.i 80000) salarySpec
        = numberCheck ("salary") (.i 80000) (some 0) (some 10000000) :=
  ⟨(C5_number_check.2.1 ("salary") (.i 80000) (some 0) (some 10000000)
      ((80000 : Int) : Rat) rfl).mpr
    (by
      constructor
      · intro m hm
        cases hm
        norm_num
      · intro m hm
        cases hm
        norm_num),
   C5_number_check.2.2.2.2.2.2.2 ("salary") (.i 80000) salarySpec rfl⟩

theorem contentCons (fields : List (String × FieldSpec)) (p : String × Value)
    (t : List (String × Value)) :
    contentErrorsList fields (p :: t)
      = (match fields.lookup p.1 with
         | some fc => fieldErrors p.1 p.2 fc
         | none => []) ++ contentErrorsList fields t := by
  simp [contentErrorsList]

theorem contentFilter (fields : List (String × FieldSpec)) (data : List (String × Value)) :
    contentErrorsList fields data
      = contentErrorsList fields (data.filter (fun p => (fields.lookup p.1).isSome)) := by
  induction data with
  | nil => rfl
  | cons p t ih =>
    rw [List.filter_cons]
    cases hl : fields.lookup p.1 with
    | none =>
      rw [contentCons, hl]
      simp [ih]
    | some fc =>
      rw [contentCons, hl]
      simp [ih, contentCons, hl]

/-- C6: for a registered template, the violation list of
`validate_data` is exactly the required-field-omission messages — one
per required field of the template that is absent or whose stripped
string value is empty, in template field order — followed by the
per-field content violations in record iteration order; and the content
pass is unchanged by dropping every record key the template does not
define (content rules run only on template-defined keys, so a
required-but-absent field is still reported by the first pass alone). -/
theorem C6_two_pass (templates : List (String × Template)) (name : String)
    (tpl : Template) (data : List (String × Value))
    (h : templates.lookup name = some tpl) :
    validationErrors templates data name
      = requiredErrorsList tpl.fields data ++ contentErrorsList tpl.fields data
    ∧ contentErrorsList tpl.fields data
      = contentErrorsList tpl.fields
          (data.filter (fun p => (tpl.fields.lookup p.1).isSome)) := by
  constructor
  · simp only [validationErrors, h]
    rw [reqFoldl tpl.fields data [], List.nil_append, contentFoldl]
  · exact contentFilter tpl.fields data

theorem C6_witness :
    validationErrors sampleTemplates okRecord ("medical_form")
      = requiredErrorsList medicalFields okRecord
        ++ contentErrorsList medicalFields okRecord
    ∧ contentErrorsList medicalFields okRecord
      = contentErrorsList medicalFields
          (okRecord.filter (fun p => (medicalFields.lookup p.1).isSome)) :=
  C6_two_pass sampleTemplates ("medical_form") ⟨medicalFields⟩ okRecord rfl

/-- C7: for a registered template, `generate_statistics_report` runs
the single-record validator once per record: it reports
`valid_records` as the number of records passing `validate_data`,
`invalid_records` as the remaining count, and maps each violation
message to exactly the number of times that message was produced
across the whole batch. -/
theorem C7_statistics (templates : List (String × Template)) (name : String)
    (tpl : Template) (dataList : List (List (String × Value)))
    (h : templates.lookup name = some tpl) :
    ∃ r, generateStatisticsReport templates dataList name = Except.ok r
      ∧ r.total_records = dataList.length
      ∧ r.valid_records
          = (dataList.filter (fun d => validateData templates d name)).length
      ∧ r.invalid_records = dataList.length - r.valid_records
      ∧ ∀ e, countOf r.common_errors e
          = (dataList.flatMap (fun d => validationErrors templates d name)).count e := by
  rcases statsFoldl templates name dataList (0, 0, []) with ⟨s1, s2, s3⟩
  simp only [generateStatisticsReport, h]
  refine ⟨_, rfl, rfl, ?_, ?_, ?_⟩
  · simpa using s1
  · have hadd := filter_length_add (fun d => validateData templates d name) dataList
    simp only at s1 s2 ⊢
    omega
  · intro e
    have := s3 e
    simpa [countOf] using this

theorem C7_witness :
    ∃ r, generateStatisticsReport sampleTemplates [okRecord, []] ("medical_form")
        = Except.ok r
      ∧ r.total_records = ([okRecord, []]).length
      ∧ r.valid_records
          = (([okRecord, []]).filter
              (fun d => validateData sampleTemplates d ("medical_form"))).length
      ∧ r.invalid_records = ([okRecord, []]).length - r.valid_records
      ∧ ∀ e, countOf r.common_errors e
          = (([okRecord, []]).flatMap
              (fun d => validationErrors sampleTemplates d ("medical_form"))).count e :=
  C7_statistics sampleTemplates ("medical_form") ⟨medicalFields⟩ [okRecord, []] rfl

/-- C8: adding a key the template does not define (with any scalar
value) to a record changes neither the violation list nor the verdict
of `validate_data`: unknown keys are ignored, producing no violation
and being skipped by the content pass.  In particular a record that
validates keeps validating. -/
theorem C8_unknown_key (templates : List (String × Template)) (name : String)
    (tpl : Template) (data : List (String × Value)) (k : String) (v : Value)
    (h : templates.lookup name = some tpl)
    (hk : tpl.fields.lookup k = none) :
    validationErrors templates (data ++ [(k, v)]) name
      = validationErrors templates data name
    ∧ validateData templates (data ++ [(k, v)]) name
      = validateData templates data name := by
  have hreq : ∀ p ∈ tpl.fields,
      requiredMissing (data ++ [(k, v)]) p.1 p.2 = requiredMissing data p.1 p.2 := by
    intro p hp
    have hne : p.1 ≠ k := key_ne_of_lookup_none tpl.fields k hk p hp
    unfold requiredMissing
    rw [lookup_append_single data k p.1 v hne]
  have h1 : requiredErrorsList tpl.fields (data ++ [(k, v)])
      = requiredErrorsList tpl.fields data := by
    unfold requiredErrorsList
    apply List.filterMap_congr
    intro p hp
    rw [hreq p hp]
  have h2 : contentErrorsList tpl.fields (data ++ [(k, v)])
      = contentErrorsList tpl.fields data := by
    unfold contentErrorsList
    rw [List.flatMap_append]
    have hsingle : ([(k, v)] : List (String × Value)).flatMap
        (fun p => match tpl.fields.lookup p.1 with
                  | some fc => fieldErrors p.1 p.2 fc
                  | none => []) = [] := by
      simp [hk]
    rw [hsingle, List.append_nil]
  have hmain : validationErrors templates (data ++ [(k, v)]) name
      = validationErrors templates data name := by
    simp only [validationErrors, h]
    rw [reqFoldl, reqFoldl, contentFoldl, contentFoldl, h1, h2]
  exact ⟨hmain, by simp only [validateData, hmain]⟩

theorem C8_witness :
    validationErrors sampleTemplates (okRecord ++ [(("extra_key"), .s ("hello"))])
        ("medical_form")
      = validationErrors sampleTemplates okRecord ("medical_form")
    ∧ validateData sampleTemplates (okRecord ++ [(("extra_key"), .s ("hello"))])
        ("medical_form")
      = validateData sampleTemplates okRecord ("medical_form") :=
  C8_unknown_key sampleTemplates ("medical_form") ⟨medicalFields⟩ okRecord
    ("extra_key") (.s ("hello")) rfl rfl

/-- C9: the Field Validator never raises and only ever appends
messages: with the exception plumbing made explicit, the only fallible
primitives it touches — `float()` and `strptime` — are each wrapped in
a `ValueError` handler, so for every field name, scalar value and field
specification the checked evaluation returns exactly the plain message
list, never an escaping exception; and a spec attribute that is absent
(`max_length`, `options`, `validation_pattern`) makes the corresponding
check not applicable, producing no message. -/
theorem C9_no_raise :
    (∀ (fn : String) (v : Value) (fc : FieldSpec),
      fieldErrorsE fn v fc = Except.ok (fieldErrors fn v fc))
    ∧ (∀ (fn : String) (v : Value) (fc : FieldSpec),
        fc.max_length = none → lengthCheck fn v fc = [])
    ∧ (∀ (fn : String) (v : Value) (fc : FieldSpec),
        fc.options = none → optionsCheck fn v fc = [])
    ∧ (∀ (fn : String) (v : Value) (fc : FieldSpec),
        fc.validation_pattern = none → patternCheck fn v fc = []) := by
  refine ⟨?_, ?_, ?_, ?_⟩
  · intro fn v fc
    have hdate : validateDateE v = validateDate v := by
      unfold validateDateE validateDate strptimeE
      cases h : strptimeYMD (pyStr v) <;> simp [h]
    have hnum : numberCheckE fn v fc.min_value fc.max_value
        = Except.ok (numberCheck fn v fc.min_value fc.max_value) := by
      unfold numberCheckE numberCheck pyFloatE
      cases h : pyFloat v <;> simp [h]
    have htype : typeCheckE fn v fc = Except.ok (typeCheck fn v fc) := by
      unfold typeCheckE typeCheck
      rw [hdate]
      split_ifs <;> simp [hnum]
    unfold fieldErrorsE fieldErrors
    rw [htype]
    rfl
  · intro fn v fc h
    simp [lengthCheck, h]
  · intro fn v fc h
    simp [optionsCheck, h]
  · intro fn v fc h
    simp [patternCheck, h]

theorem C9_witness :
    fieldErrorsE ("salary") (.i 80000) salarySpec
        = Except.ok (fieldErrors ("salary") (.i 80000) salarySpec)
    ∧ lengthCheck ("salary") (.i 80000) salarySpec = []
    ∧ optionsCheck ("salary") (.i 80000) salarySpec = []
    ∧ patternCheck ("salary") (.i 80000) salarySpec = [] :=
  ⟨C9_no_raise.1 ("salary") (.i 80000) salarySpec,
   C9_no_raise.2.1 ("salary") (.i 80000) salarySpec rfl,
   C9_no_raise.2.2.1 ("salary") (.i 80000) salarySpec rfl,
   C9_no_raise.2.2.2 ("salary") (.i 80000) salarySpec rfl⟩

/-- C10: a required field carried with the value `False` or `0` passes
the required-field presence check of `validate_data` (its stringified,
stripped value `"False"`/`"0"` is nonempty), yet
`generate_statistics_report` counts the same occurrence as empty: it
increments `total_empty`, not `total_filled`, and excludes the value
from `unique_values`, because the fill count tests the raw value's
truthiness instead of its stringified emptiness. -/
theorem C10_falsy_divergence (data : List (String × Value)) (fn : String)
    (fc : FieldSpec) (v : Value) (_hreq : fc.required = true)
    (hv : data.lookup fn = some v)
    (hfalsy : v = Value.b false ∨ v = Value.i 0) :
    requiredMissing data fn fc = false
    ∧ (fieldStats [data] fn).total_filled = 0
    ∧ (fieldStats [data] fn).total_empty = 1
    ∧ (fieldStats [data] fn).unique_values = [] := by
  have hstr : (pyStrip (pyStr v)).isEmpty = false := by
    rcases hfalsy with h | h <;> subst h <;> decide
  have htruthy : pyTruthy v = false := by
    rcases hfalsy with h | h <;> subst h <;> decide
  refine ⟨?_, ?_, ?_, ?_⟩
  · simp [requiredMissing, hv, hstr]
  · simp [fieldStats, fieldStatsRaw, hv, htruthy]
  · simp [fieldStats, fieldStatsRaw, hv, htruthy]
  · simp [fieldStats, fieldStatsRaw, hv, htruthy]

theorem C10_witness :
    requiredMissing [(("emergency_contact"), .b false)] ("emergency_contact")
        ({ type := ("boolean"), required := true } : FieldSpec) = false
    ∧ (fieldStats [[(("emergency_contact"), .b false)]]
        ("emergency_contact")).total_filled = 0
    ∧ (fieldStats [[(("emergency_contact"), .b false)]]
        ("emergency_contact")).total_empty = 1
    ∧ (fieldStats [[(("emergency_contact"), .b false)]]
        ("emergency_contact")).unique_values = [] :=
  C10_falsy_divergence [(("emergency_contact"), .b false)] ("emergency_contact")
    ({ type := ("boolean"), required := true } : FieldSpec) (.b false) rfl rfl
    (Or.inl rfl)
